import Mathlib

/-
Verification development for the Telegram TP Executive System.

This file gives a shallow embedding, in Lean, of the core logic of the
repository:

* `simple_signal_parser.py` — the `TradingSignal` dataclass with its
  `is_valid` price-ordering validator, the compiled regex patterns of
  `SimplifiedSignalParser`, the `is_new_signal` pre-filter, the
  regex extraction `parse_signal_with_regex`, and the two-strategy
  `parse_signal` driver (the OpenAI strategy's network call is modelled
  by an `Option AIResult` parameter standing for the structured JSON the
  strategy did or did not produce).

* `simple_web_server.py` — the SQLite-backed endpoints `add_signal`
  (with its validation chain and the UNIQUE / NOT NULL integrity
  constraints of the `signals` table), `report_event` (dual-key
  signal resolution and the event-type → status mapping), and the
  event-replay state reconstruction of `get_signal_state`.

Python floats are modelled as exact rationals (ℚ); all decimal literals
appearing in the repository are small enough that IEEE-754 conversion is
injective and order-preserving on them, so strict comparisons between
prices coincide. Regexes are embedded as direct character-list scanners
that reproduce Python `re` semantics (leftmost match, alternation order,
greedy quantifiers over disjoint character classes, word boundaries,
and the one negative lookbehind) for the specific compiled patterns.
Concrete rationals are written with `mkRat` so that every definition is
evaluable by kernel reduction.
-/

set_option maxRecDepth 8000

namespace TPExec

/-! ## Character-level helpers shared by the regex embeddings -/

abbrev Chars := List Char

/-- Lower-casing used for the `re.IGNORECASE` patterns (ASCII inputs). -/
def lcChar (c : Char) : Char := c.toLower

/-- Python `\w`: letters, digits, underscore (ASCII fragment). -/
def isWordCh (c : Char) : Bool := c.isAlphanum || c = '_'

/-- Python `\s`: space, tab, newline, carriage return, vertical tab, form feed. -/
def isSpaceCh (c : Char) : Bool :=
  c = ' ' || c = '\t' || c = '\n' || c = '\r' || c = Char.ofNat 11 || c = Char.ofNat 12

/-- Word boundary `\b` when the next char is a word char: holds iff the
previous char (if any) is not a word char. -/
def bdry : Option Char → Bool
  | none => true
  | some c => !isWordCh c

/-- Word boundary `\b` right after a word char: the rest must not start
with a word char. -/
def bAfter : Chars → Bool
  | [] => true
  | c :: _ => !isWordCh c

/-- Case-insensitive literal match at the head; the pattern is given in
lower case. Returns the rest of the input on success. -/
def matchCIL : Chars → Chars → Option Chars
  | [], s => some s
  | _ :: _, [] => none
  | p :: ps, c :: cs => if lcChar c = p then matchCIL ps cs else none

def matchCI (p : String) (s : Chars) : Option Chars := matchCIL p.toList s

/-- Pattern `\s*` (maximal munch; all uses are followed by non-space literals, so
greediness never needs backtracking). -/
def dropSpacesStar (s : Chars) : Chars := s.dropWhile isSpaceCh

/-- Pattern `\s+`. -/
def dropSpaces1 : Chars → Option Chars
  | [] => none
  | c :: cs => if isSpaceCh c then some (dropSpacesStar cs) else none

/-- Pattern `[\s:@]*` (maximal munch; always followed by a digit requirement). -/
def dropSepStar (s : Chars) : Chars :=
  s.dropWhile (fun c => isSpaceCh c || c = ':' || c = '@')

/-- The price capture `([0-9]+\.?[0-9]*)`: greedy digits, optional dot,
greedy digits. Returns (captured chars, rest). -/
def matchNum (s : Chars) : Option (Chars × Chars) :=
  let d1 := s.takeWhile Char.isDigit
  let r1 := s.dropWhile Char.isDigit
  if d1.isEmpty then none
  else
    match r1 with
    | '.' :: r2 => some (d1 ++ '.' :: r2.takeWhile Char.isDigit, r2.dropWhile Char.isDigit)
    | _ => some (d1, r1)

def digitsVal (l : Chars) : Nat := l.foldl (fun a c => a * 10 + (c.toNat - 48)) 0

/-- Python `float` on a captured decimal string, as an exact rational. -/
def parseDec (l : Chars) : ℚ :=
  let ip := l.takeWhile (· ≠ '.')
  let fp := (l.dropWhile (· ≠ '.')).drop 1
  mkRat (digitsVal ip * 10 ^ fp.length + digitsVal fp) (10 ^ fp.length)

/-- Embeds `re.search`: try the position matcher at each position left to right;
`prev` is the character just before the current position (for `\b`). -/
def searchSome {α : Type} (f : Option Char → Chars → Option α) :
    Option Char → Chars → Option α
  | prev, [] => f prev []
  | prev, c :: cs =>
    match f prev (c :: cs) with
    | some a => some a
    | none => searchSome f (some c) cs

/-- Scanner that carries the whole reversed prefix (needed for the one
pattern with a lookbehind). -/
def scanPre (f : Chars → Chars → Bool) : Chars → Chars → Bool
  | pre, [] => f pre []
  | pre, c :: cs => f pre (c :: cs) || scanPre f (c :: pre) cs

/-! ## The compiled patterns of `SimplifiedSignalParser._compile_patterns` -/

def isUpperAZ (c : Char) : Bool := 'A' ≤ c && c ≤ 'Z'

/-- Pattern `pair_pattern = \b([A-Z]{6})\b` tried at one position. -/
def pairAt (prev : Option Char) (s : Chars) : Option Chars :=
  if bdry prev then
    match s with
    | a :: b :: c :: d :: e :: f :: rest =>
      if isUpperAZ a && isUpperAZ b && isUpperAZ c && isUpperAZ d && isUpperAZ e &&
          isUpperAZ f && bAfter rest
      then some [a, b, c, d, e, f] else none
    | _ => none
  else none

def pairSearch (s : Chars) : Option Chars := searchSome pairAt none s

/-- After `LIMIT` in `action_pattern`: `(?:\s+ORDER)?\b` (greedy branch
first, then the empty branch). -/
def limitTail (r : Chars) : Bool :=
  (match dropSpaces1 r with
   | some r4 =>
     match matchCI "order" r4 with
     | some r5 => bAfter r5
     | none => false
   | none => false)
  || bAfter r

/-- Pattern `action_pattern = \b(BUY|SELL)\s+LIMIT(?:\s+ORDER)?\b|\blimit\s+order\b`
(IGNORECASE) at one position. The result's inner option is capture
group 1 (absent for the bare `limit order` alternative). -/
def actionAt (prev : Option Char) (s : Chars) : Option (Option Chars) :=
  if bdry prev then
    let alt1 : Option (Option Chars) :=
      let side : Option (Chars × Chars) :=
        match matchCI "buy" s with
        | some r => some (s.take 3, r)
        | none =>
          match matchCI "sell" s with
          | some r => some (s.take 4, r)
          | none => none
      match side with
      | some (cap, r1) =>
        match dropSpaces1 r1 with
        | some r2 =>
          match matchCI "limit" r2 with
          | some r3 => if limitTail r3 then some (some cap) else none
          | none => none
        | none => none
      | none => none
    match alt1 with
    | some g => some g
    | none =>
      match matchCI "limit" s with
      | some r1 =>
        match dropSpaces1 r1 with
        | some r2 =>
          match matchCI "order" r2 with
          | some r3 => if bAfter r3 then some none else none
          | none => none
        | none => none
      | none => none
  else none

def actionSearch (s : Chars) : Option (Option Chars) := searchSome actionAt none s

/-- Pattern `buy_emoji_pattern`: the green circle glyph U+1F7E2. -/
def hasBuyEmoji (s : Chars) : Bool := s.any (· = Char.ofNat 0x1F7E2)

/-- Pattern `sell_emoji_pattern`: the red circle glyph U+1F534. -/
def hasSellEmoji (s : Chars) : Bool := s.any (· = Char.ofNat 0x1F534)

/-- Pattern `[\s:@]*` followed by the price capture. -/
def numAfterSep (r : Chars) : Option Chars := (matchNum (dropSepStar r)).map (·.1)

/-- Try keyword alternatives in pattern order at one position; on a keyword
match run the continuation `tail`, and on its failure fall through to the
next alternative (Python alternation backtracking). -/
def firstKwC {α : Type} (tail : Chars → Option α) :
    List (Chars → Option Chars) → Chars → Option α
  | [], _ => none
  | k :: rest, s =>
    match k s with
    | some r =>
      match tail r with
      | some a => some a
      | none => firstKwC tail rest s
    | none => firstKwC tail rest s

/-- Keyword `Limit\s+Order` of `entry_pattern`. -/
def kwLimitOrder (s : Chars) : Option Chars :=
  match matchCI "limit" s with
  | some r => (dropSpaces1 r).bind (matchCI "order")
  | none => none

/-- Pattern `entry_pattern =
(?:ENTRY|PRICE|Entry|ORDER|Limit\s+Order)[\s:@]*(num)|@\s*(num)`
(IGNORECASE) at one position; returns the captured price (whichever of
the two groups matched). -/
def entryAt (_ : Option Char) (s : Chars) : Option Chars :=
  match firstKwC numAfterSep
      [matchCI "entry", matchCI "price", matchCI "entry", matchCI "order", kwLimitOrder] s with
  | some cap => some cap
  | none =>
    match s with
    | '@' :: r => (matchNum (dropSpacesStar r)).map (·.1)
    | _ => none

def entrySearch (s : Chars) : Option Chars := searchSome entryAt none s

/-- Keyword `STOP\s*LOSS`. -/
def kwStopLossStar (s : Chars) : Option Chars :=
  (matchCI "stop" s).bind (fun r => matchCI "loss" (dropSpacesStar r))

/-- Keyword `Stop\s+Loss`. -/
def kwStopLossPlus (s : Chars) : Option Chars :=
  (matchCI "stop" s).bind (fun r => (dropSpaces1 r).bind (matchCI "loss"))

/-- Pattern `sl_pattern = (?:SL|STOP\s*LOSS|Stop-loss|Stop\s+Loss)[\s:@]*(num)`
(IGNORECASE) at one position. -/
def slAt (_ : Option Char) (s : Chars) : Option Chars :=
  firstKwC numAfterSep
    [matchCI "sl", kwStopLossStar, matchCI "stop-loss", kwStopLossPlus] s

def slSearch (s : Chars) : Option Chars := searchSome slAt none s

/-- The keyword alternation `(?:TP|TAKE\s*PROFIT|TARGET\s*PROFIT)`. -/
def tpKws : List (Chars → Option Chars) :=
  [matchCI "tp",
   fun s => (matchCI "take" s).bind (fun r => matchCI "profit" (dropSpacesStar r)),
   fun s => (matchCI "target" s).bind (fun r => matchCI "profit" (dropSpacesStar r))]

/-- After a TP keyword in `tp_numbered_pattern`: `[\s]*([1-3])[\s:@]*(num)`.
Returns ((level, price capture), rest after the whole match). -/
def tpNumTail (r : Chars) : Option ((Nat × Chars) × Chars) :=
  match dropSpacesStar r with
  | c :: r2 =>
    if c = '1' || c = '2' || c = '3' then
      match matchNum (dropSepStar r2) with
      | some (cap, rest) => some ((c.toNat - 48, cap), rest)
      | none => none
    else none
  | [] => none

/-- Pattern `tp_numbered_pattern` tried at one position. -/
def tpNumberedAt (s : Chars) : Option ((Nat × Chars) × Chars) :=
  firstKwC tpNumTail tpKws s

def tpNumberedSearch (s : Chars) : Option ((Nat × Chars) × Chars) :=
  searchSome (fun _ r => tpNumberedAt r) none s

/-- Pattern `tp_simple_pattern = (?:Take-profit|TAKE\s*PROFIT|TARGET\s*PROFIT)[\s:@]*(num)`
(IGNORECASE) at one position. -/
def tpSimpleAt (s : Chars) : Option Chars :=
  firstKwC numAfterSep
    [matchCI "take-profit",
     fun s => (matchCI "take" s).bind (fun r => matchCI "profit" (dropSpacesStar r)),
     fun s => (matchCI "target" s).bind (fun r => matchCI "profit" (dropSpacesStar r))] s

def tpSimpleSearch (s : Chars) : Option Chars :=
  searchSome (fun _ r => tpSimpleAt r) none s

/-- Embeds `tp_numbered_pattern.findall`: repeated leftmost non-overlapping
matches (the pattern has no anchors, so the previous character is
irrelevant). Fuel-driven; every match consumes at least one character,
so `length + 1` fuel is never exhausted. -/
def tpFindAllFuel : Nat → Chars → List (Nat × Chars)
  | 0, _ => []
  | _ + 1, [] => []
  | fuel + 1, c :: cs =>
    match tpNumberedAt (c :: cs) with
    | some (lv, rest) => lv :: tpFindAllFuel fuel rest
    | none => tpFindAllFuel fuel cs

def tpFindAll (s : Chars) : List (Nat × Chars) := tpFindAllFuel (s.length + 1) s

/-- The negative lookbehind `(?<!\btake[- ])` of `reply_indicators`:
does `\btake[- ]` (IGNORECASE) match ending right here? `pre` is the
reversed prefix before the current position. -/
def takeBehind (pre : Chars) : Bool :=
  match pre with
  | sep :: e :: k :: a :: t :: rest =>
    (sep = ' ' || sep = '-') && lcChar e = 'e' && lcChar k = 'k' && lcChar a = 'a' &&
      lcChar t = 't' && bdry rest.head?
  | _ => false

/-- A whole word alternative `word\b` (the opening `\b` is checked by the
caller). -/
def wordAlt (w : String) (s : Chars) : Bool :=
  match matchCI w s with
  | some r => bAfter r
  | none => false

/-- Pattern `reply_indicators =
\b(?:close|hit|move|partial)\b|(?<!\btake[- ])\bprofit\b|\b(?:sl|tp)\s+(?:hit|move|to)\b`
(IGNORECASE) tried at one position. -/
def replyAt (pre : Chars) (s : Chars) : Bool :=
  let atB := bdry pre.head?
  (atB && (wordAlt "close" s || wordAlt "hit" s || wordAlt "move" s || wordAlt "partial" s))
  || (atB && !takeBehind pre && wordAlt "profit" s)
  || (atB &&
      (match (match matchCI "sl" s with | some r => some r | none => matchCI "tp" s) with
       | some r1 =>
         match dropSpaces1 r1 with
         | some r2 => wordAlt "hit" r2 || wordAlt "move" r2 || wordAlt "to" r2
         | none => false
       | none => false))

def replySearch (s : Chars) : Bool := scanPre replyAt [] s

/-! ## `TradingSignal` and its validator (`simple_signal_parser.py` lines 24-90) -/

inductive SignalAction
  | BUY
  | SELL
deriving DecidableEq

structure TradingSignal where
  pair : String
  action : SignalAction
  entry_price : ℚ
  stop_loss : ℚ
  take_profit_1 : ℚ
  take_profit_2 : Option ℚ := none
  take_profit_3 : Option ℚ := none
  raw_text : String := ""
deriving DecidableEq

/-- Source `TradingSignal.get_take_profits`: all non-None take profit levels,
in declaration order. -/
def TradingSignal.get_take_profits (s : TradingSignal) : List ℚ :=
  [s.take_profit_1] ++ s.take_profit_2.toList ++ s.take_profit_3.toList

/-- The ascending adjacent-pair loop of `is_valid` for BUY:
returns false as soon as `tps[i] >= tps[i+1]`. -/
def ascOk : List ℚ → Bool
  | a :: b :: t => decide (a < b) && ascOk (b :: t)
  | _ => true

/-- The descending adjacent-pair loop of `is_valid` for SELL:
returns false as soon as `tps[i] <= tps[i+1]`. -/
def descOk : List ℚ → Bool
  | a :: b :: t => decide (b < a) && descOk (b :: t)
  | _ => true

/-- Source `TradingSignal.is_valid`. The required-fields check is Python
truthiness of `[pair, action, entry_price, stop_loss, take_profit_1]`:
the empty pair string and price 0.0 are falsy, an enum member is always
truthy. -/
def TradingSignal.is_valid (s : TradingSignal) : Bool :=
  if s.pair = "" ∨ s.entry_price = 0 ∨ s.stop_loss = 0 ∨ s.take_profit_1 = 0 then false
  else
    match s.action with
    | SignalAction.BUY =>
      if ¬(s.stop_loss < s.entry_price ∧ s.entry_price < s.take_profit_1) then false
      else ascOk s.get_take_profits
    | SignalAction.SELL =>
      if ¬(s.take_profit_1 < s.entry_price ∧ s.entry_price < s.stop_loss) then false
      else descOk s.get_take_profits

/-! ## `SimplifiedSignalParser.is_new_signal` (lines 132-162) -/

def is_new_signal (text : Chars) (is_reply : Bool) : Bool :=
  if is_reply then false
  else if !((actionSearch text).isSome || hasBuyEmoji text || hasSellEmoji text) then false
  else if replySearch text then false
  else if !(pairSearch text).isSome then false
  else if !((entrySearch text).isSome && (slSearch text).isSome) then false
  else if !((tpNumberedSearch text).isSome || (tpSimpleSearch text).isSome) then false
  else true

/-! ## `SimplifiedSignalParser.parse_signal_with_regex` (lines 164-235) -/

/-- Source `SignalAction(value)`: raises ValueError (modelled as `none`) unless
the value is exactly "BUY" or "SELL". -/
def sideOfString (s : String) : Option SignalAction :=
  if s = "BUY" then some SignalAction.BUY
  else if s = "SELL" then some SignalAction.SELL
  else none

def upperStr (l : Chars) : String := String.mk (l.map Char.toUpper)

/-- Models `tp_dict.get(n)` for the dict comprehension
`\x7bint(level): float(price) for level, price in tp_numbered_matches\x7d`:
a later tuple with the same level overrides an earlier one. -/
def tpDictGet (ms : List (Nat × Chars)) (n : Nat) : Option ℚ :=
  match ms.reverse.find? (fun p => decide (p.1 = n)) with
  | some p => some (parseDec p.2)
  | none => none

def parse_signal_with_regex (text : String) : Option TradingSignal :=
  let cs := text.toList
  match pairSearch cs with
  | none => none
  | some pairCap =>
    let action : Option SignalAction :=
      if hasBuyEmoji cs then some SignalAction.BUY
      else if hasSellEmoji cs then some SignalAction.SELL
      else
        match actionSearch cs with
        | some (some g1) => sideOfString (upperStr g1)
        | _ => none
    match action with
    | none => none
    | some act =>
      match entrySearch cs with
      | none => none
      | some entryCap =>
        match slSearch cs with
        | none => none
        | some slCap =>
          let tpms := tpFindAll cs
          let tps : Option ℚ × Option ℚ × Option ℚ :=
            if tpms.isEmpty then
              match tpSimpleSearch cs with
              | some cap => (some (parseDec cap), none, none)
              | none => (none, none, none)
            else (tpDictGet tpms 1, tpDictGet tpms 2, tpDictGet tpms 3)
          match tps.1 with
          | none => none
          | some tp1 =>
            let sig : TradingSignal :=
              { pair := String.mk pairCap, action := act, entry_price := parseDec entryCap,
                stop_loss := parseDec slCap, take_profit_1 := tp1,
                take_profit_2 := tps.2.1, take_profit_3 := tps.2.2, raw_text := text }
            if sig.is_valid then some sig else none

/-! ## `SimplifiedSignalParser.parse_signal` (lines 356-410)

The OpenAI strategy (`validate_with_openai`) is an external network
call; its outcome is modelled by an `Option AIResult` argument: `none`
stands for "no structured result" (no API key configured, API failure,
or the model answering `is_valid_signal: false`), and `some r` for the
structured JSON the model returned with `is_valid_signal: true`.
Building the `TradingSignal` from that JSON can still fail with
ValueError inside `SignalAction(...)`, which the code catches before
falling back to the regex strategy. -/

structure AIResult where
  pair : String
  action : String
  entry_price : ℚ
  stop_loss : ℚ
  tp1 : ℚ
  tp2 : Option ℚ
  tp3 : Option ℚ
deriving DecidableEq

/-- The `TradingSignal(...)` construction from the OpenAI JSON inside
`parse_signal` (lines 371-380). -/
def buildFromAI (r : AIResult) (text : String) : Option TradingSignal :=
  match sideOfString r.action with
  | some a =>
    some { pair := r.pair, action := a, entry_price := r.entry_price,
           stop_loss := r.stop_loss, take_profit_1 := r.tp1,
           take_profit_2 := r.tp2, take_profit_3 := r.tp3, raw_text := text }
  | none => none

/-- The regex fallback branch of `parse_signal` (lines 396-410): the
pre-filter gates the regex extraction. -/
def regexStrategy (text : String) : Option TradingSignal :=
  if is_new_signal text.toList false then parse_signal_with_regex text else none

def parse_signal (ai : Option AIResult) (text : String) (is_reply : Bool) :
    Option TradingSignal :=
  if is_reply then none
  else
    match ai with
    | some r =>
      match buildFromAI r text with
      | some sig => if sig.is_valid then some sig else regexStrategy text
      | none => regexStrategy text
    | none => regexStrategy text

/-! ## The signals table and `get_signal_state` reconciliation
(`simple_web_server.py` lines 238-355)

A stored row of the `signals` table at its declared column types: `tp1`
is `REAL NOT NULL`, `tp2`/`tp3` are nullable. -/

structure StoredSignal where
  id : String
  message_id : Int
  symbol : String
  action : String
  entry_price : ℚ
  stop_loss : ℚ
  tp1 : ℚ
  tp2 : Option ℚ
  tp3 : Option ℚ
  status : String
deriving DecidableEq

/-- Accumulator of the event-replay loop of `get_signal_state`
(`tp1_hit`, `tp2_hit`, `tp3_hit`, `current_sl`). -/
structure RecAcc where
  t1 : Bool
  t2 : Bool
  t3 : Bool
  sl : ℚ
deriving DecidableEq

/-- One iteration of the replay loop (lines 298-307): only the
`event_type` column is inspected. -/
def stepEvent (entry tp1 : ℚ) (a : RecAcc) (et : String) : RecAcc :=
  if et = "tp1_hit" then { a with t1 := true, sl := entry }
  else if et = "tp2_hit" then { a with t2 := true, sl := tp1 }
  else if et = "tp3_hit" then { a with t3 := true }
  else a

def replayEvents (entry tp1 : ℚ) (evs : List String) (a : RecAcc) : RecAcc :=
  evs.foldl (stepEvent entry tp1) a

/-- The reconciled state assembled by `get_signal_state` (lines 309-344). -/
structure ReconciledState where
  stop_loss : ℚ
  tp1 : Option ℚ
  tp2 : Option ℚ
  tp3 : Option ℚ
  status : String
  tp1_hit : Bool
  tp2_hit : Bool
  tp3_hit : Bool
deriving DecidableEq

/-- Embeds `get_signal_state` after its two queries: the signal row plus
its event-type list in replay order determine the response. -/
def getSignalState (sig : StoredSignal) (evs : List String) : ReconciledState :=
  let a := replayEvents sig.entry_price sig.tp1 evs
    { t1 := false, t2 := false, t3 := false, sl := sig.stop_loss }
  { stop_loss := a.sl,
    tp1 := if a.t1 then none else some sig.tp1,
    tp2 := if a.t2 then none else sig.tp2,
    tp3 := if a.t3 then none else sig.tp3,
    status := if a.t3 then "completed"
              else if a.t1 || a.t2 then "active_partial"
              else sig.status,
    tp1_hit := a.t1, tp2_hit := a.t2, tp3_hit := a.t3 }

/-- The last stop-moving event (`tp1_hit` or `tp2_hit`) of a replay
list, if any. -/
def lastMover : List String → Option String
  | [] => none
  | x :: xs =>
    match lastMover xs with
    | some m => some m
    | none => if x = "tp1_hit" ∨ x = "tp2_hit" then some x else none

/-! ## `report_event`: dual-key resolution and status mapping
(`simple_web_server.py` lines 149-236) -/

/-- Python truthiness of an optional string (absent and `""` are falsy). -/
def truthyS : Option String → Bool
  | none => false
  | some s => decide (s ≠ "")

/-- Python truthiness of an optional integer (absent and `0` are falsy). -/
def truthyI : Option Int → Bool
  | none => false
  | some m => decide (m ≠ 0)

def findById (sigs : List StoredSignal) (s : String) : Option StoredSignal :=
  sigs.find? (fun r => decide (r.id = s))

def findByMid (sigs : List StoredSignal) (m : Int) : Option StoredSignal :=
  sigs.find? (fun r => decide (r.message_id = m))

inductive RefRes
  | ok (sid : String)
  | notFound
  | badRequest
deriving DecidableEq

/-- Resolution of the signal reference in `report_event` (lines 163-204):
if `signal_id` is falsy and `message_id` truthy, look up by message id
(404 on miss); if both falsy, 400; otherwise verify the given
`signal_id` and, when it does not exist and a truthy `message_id` was
also sent, fall back to the message-id lookup (404 when that misses
too). -/
def resolveRef (sigs : List StoredSignal) (sid? : Option String) (mid? : Option Int) :
    RefRes :=
  if truthyS sid? = false ∧ truthyI mid? = true then
    match findByMid sigs (mid?.getD 0) with
    | some r => RefRes.ok r.id
    | none => RefRes.notFound
  else if truthyS sid? = false then RefRes.badRequest
  else
    let s := sid?.getD ""
    match findById sigs s with
    | some _ => RefRes.ok s
    | none =>
      if truthyI mid? = true then
        match findByMid sigs (mid?.getD 0) with
        | some r => RefRes.ok r.id
        | none => RefRes.notFound
      else RefRes.notFound

/-- A row of the append-only `trade_events` table. `timestamp` models
`CURRENT_TIMESTAMP`, which has one-second granularity. -/
structure TradeEvent where
  id : Nat
  signal_id : String
  event_type : String
  event_data : String
  timestamp : Nat
deriving DecidableEq

/-- The two tables plus the AUTOINCREMENT counter of `trade_events`. -/
structure SDB where
  signals : List StoredSignal
  events : List TradeEvent
  nextEid : Nat
deriving DecidableEq

inductive REResp
  | success (sid : String)
  | badRequest (msg : String)
  | notFound
deriving DecidableEq

/-- New status chosen by `report_event` (lines 212-220); `none` means no
UPDATE statement is run. -/
def newStatusFor (et : String) : Option String :=
  if et = "order_placed" then some "active"
  else if et = "tp3_hit" ∨ et = "sl_hit" ∨ et = "manual_close" then some "completed"
  else if et = "error" then some "failed"
  else none

/-- Embeds the `/report_event` endpoint after JSON parsing: check
`event_type` truthiness, resolve the signal reference, insert the event
row, and apply the status mapping — all inside one transaction. `now`
is the CURRENT_TIMESTAMP value of the insert. -/
def reportEvent (db : SDB) (sid? : Option String) (mid? : Option Int)
    (et? : Option String) (edata : String) (now : Nat) : REResp × SDB :=
  if truthyS et? = false then (REResp.badRequest "event_type is required", db)
  else
    let et := et?.getD ""
    match resolveRef db.signals sid? mid? with
    | RefRes.badRequest => (REResp.badRequest "signal_id or message_id is required", db)
    | RefRes.notFound => (REResp.notFound, db)
    | RefRes.ok s =>
      let ev : TradeEvent :=
        { id := db.nextEid, signal_id := s, event_type := et,
          event_data := edata, timestamp := now }
      let sigs' :=
        match newStatusFor et with
        | some ns => db.signals.map (fun r => if r.id = s then { r with status := ns } else r)
        | none => db.signals
      (REResp.success s, { signals := sigs', events := db.events ++ [ev],
                           nextEid := db.nextEid + 1 })

/-! ## `add_signal` and the SQLite integrity constraints
(`simple_web_server.py` lines 357-428)

The request body is untyped JSON, so the endpoint is modelled over JSON
values; the inserted row stores the values as given (SQLite is
dynamically typed). -/

inductive JVal
  | jnull
  | js (s : String)
  | ji (n : Int)
  | jn (q : ℚ)
  | jb (b : Bool)
deriving DecidableEq

abbrev JObj := List (String × JVal)

def jget (d : JObj) (k : String) : Option JVal :=
  (d.find? (fun p => decide (p.1 = k))).map (·.2)

/-- Decimal-string shape accepted by Python `float(str)` (sufficient
fragment: optional sign, digits with at most one dot and at least one
digit; exponents and specials are not exercised by this repository). -/
def strFloatOk (s : String) : Bool :=
  let l := match s.toList with
           | '+' :: r => r
           | '-' :: r => r
           | r => r
  let ip := l.takeWhile Char.isDigit
  match l.dropWhile Char.isDigit with
  | [] => !ip.isEmpty
  | '.' :: r2 => (!ip.isEmpty || !(r2.takeWhile Char.isDigit).isEmpty) &&
      (r2.dropWhile Char.isDigit).isEmpty
  | _ => false

/-- Python `float(v)` succeeds: numbers and booleans always, strings when
they parse, `None` raises TypeError. -/
def floatOk : JVal → Bool
  | JVal.jnull => false
  | JVal.js s => strFloatOk s
  | JVal.ji _ => true
  | JVal.jn _ => true
  | JVal.jb _ => true

/-- Python `int(v)` succeeds: ints, floats and booleans always (floats
truncate), digit strings with optional sign, never `None`. -/
def intOk : JVal → Bool
  | JVal.jnull => false
  | JVal.js s =>
    let l := match s.toList with
             | '+' :: r => r
             | '-' :: r => r
             | r => r
    !l.isEmpty && l.all Char.isDigit
  | JVal.ji _ => true
  | JVal.jn _ => true
  | JVal.jb _ => true

def requiredFields : List String :=
  ["id", "message_id", "channel_id", "symbol", "action",
   "entry_price", "stop_loss", "tp1", "raw_message"]

/-- An optional tp2/tp3 field fails its type check when present,
non-null and not float-parseable (`data.get(...)` turns both an absent
key and an explicit null into Python `None`, which skips the check). -/
def tpFieldBad (v? : Option JVal) : Bool :=
  match v? with
  | some v => decide (v ≠ JVal.jnull) && !floatOk v
  | none => false

/-- The validation chain of `add_signal` (lines 360-405), in source
order; returns the 400 message when the request is rejected. -/
def addValidate (d : JObj) : Option String :=
  if d = [] then some "No JSON data provided"
  else
    match requiredFields.find? (fun f => (jget d f).isNone) with
    | some f => some ("Missing required field: " ++ f)
    | none =>
      if !(floatOk ((jget d "entry_price").getD JVal.jnull) &&
           floatOk ((jget d "stop_loss").getD JVal.jnull) &&
           floatOk ((jget d "tp1").getD JVal.jnull) &&
           intOk ((jget d "message_id").getD JVal.jnull) &&
           intOk ((jget d "channel_id").getD JVal.jnull)) then
        some "Invalid data types for numeric fields"
      else if tpFieldBad (jget d "tp2") then some "Invalid data type for tp2"
      else if tpFieldBad (jget d "tp3") then some "Invalid data type for tp3"
      else if jget d "action" ≠ some (JVal.js "BUY") ∧
              jget d "action" ≠ some (JVal.js "SELL") then
        some "Invalid action: must be BUY or SELL"
      else none

/-- A row of the `signals` table holding the inserted values as given. -/
structure RawRow where
  id : JVal
  message_id : JVal
  channel_id : JVal
  symbol : JVal
  action : JVal
  entry_price : JVal
  stop_loss : JVal
  tp1 : JVal
  tp2 : JVal
  tp3 : JVal
  raw_message : JVal
  status : String
deriving DecidableEq

/-- The row built by the INSERT of `add_signal` (lines 407-418); absent
or null `tp2`/`tp3` insert NULL, `status` is the literal 'pending'. -/
def mkRow (d : JObj) : RawRow :=
  { id := (jget d "id").getD JVal.jnull,
    message_id := (jget d "message_id").getD JVal.jnull,
    channel_id := (jget d "channel_id").getD JVal.jnull,
    symbol := (jget d "symbol").getD JVal.jnull,
    action := (jget d "action").getD JVal.jnull,
    entry_price := (jget d "entry_price").getD JVal.jnull,
    stop_loss := (jget d "stop_loss").getD JVal.jnull,
    tp1 := (jget d "tp1").getD JVal.jnull,
    tp2 := (jget d "tp2").getD JVal.jnull,
    tp3 := (jget d "tp3").getD JVal.jnull,
    raw_message := (jget d "raw_message").getD JVal.jnull,
    status := "pending" }

/-- NOT NULL violations of the schema (lines 49-64). The `id` column is
`TEXT PRIMARY KEY`, which SQLite — by its documented legacy quirk —
still allows to be NULL, so it is not listed here. -/
def notNullViol (r : RawRow) : Bool :=
  r.message_id = JVal.jnull || r.channel_id = JVal.jnull || r.symbol = JVal.jnull ||
  r.action = JVal.jnull || r.entry_price = JVal.jnull || r.stop_loss = JVal.jnull ||
  r.tp1 = JVal.jnull || r.raw_message = JVal.jnull

/-- UNIQUE violations: the primary key `id` and the UNIQUE `message_id`.
NULLs are pairwise distinct in SQLite unique indexes. -/
def dupViol (db : List RawRow) (r : RawRow) : Bool :=
  db.any (fun x =>
    decide ((x.id = r.id ∧ r.id ≠ JVal.jnull) ∨
            (x.message_id = r.message_id ∧ r.message_id ≠ JVal.jnull)))

inductive AddResp
  | ok
  | bad (msg : String)
  | dup
deriving DecidableEq

/-- Embeds the `/add_signal` endpoint: the validation chain, then the
INSERT; any `sqlite3.IntegrityError` (duplicate key or NOT NULL
violation alike) is answered with the 409 "Signal already exists"
response and leaves the table unchanged. -/
def addSignal (db : List RawRow) (d : JObj) : AddResp × List RawRow :=
  match addValidate d with
  | some m => (AddResp.bad m, db)
  | none =>
    let r := mkRow d
    if notNullViol r || dupViol db r then (AddResp.dup, db)
    else (AddResp.ok, db ++ [r])

/-! ## The event query of `get_signal_state` (lines 276-281)

The SQL is `SELECT ... FROM trade_events WHERE signal_id = ? ORDER BY
timestamp ASC`, with no secondary sort key. SQL only constrains the
result to be a permutation of the matching rows that is sorted by
`timestamp`; the relative order of rows with equal timestamps is NOT
specified (SQLite documents no stability for ORDER BY). The query is
therefore modelled as a relation on outputs. -/

def queryEventsSpec (events : List TradeEvent) (sid : String)
    (out : List TradeEvent) : Prop :=
  out.Perm (events.filter (fun e => decide (e.signal_id = sid))) ∧
  out.Pairwise (fun a b => a.timestamp ≤ b.timestamp)

/-- Ordering claimed by the spec: timestamp ascending with ties broken
by the auto-increment id (insertion order). -/
def tieSorted (out : List TradeEvent) : Prop :=
  out.Pairwise (fun a b => a.timestamp < b.timestamp ∨
    (a.timestamp = b.timestamp ∧ a.id ≤ b.id))

/-! ## Helper lemmas -/

theorem ascOk_iff (l : List ℚ) : ascOk l = true ↔ List.Chain' (· < ·) l := by
  induction l with
  | nil => simp [ascOk]
  | cons a t ih =>
    cases t with
    | nil => simp [ascOk]
    | cons b t2 => simp [ascOk, List.chain'_cons, ih]

theorem descOk_iff (l : List ℚ) : descOk l = true ↔ List.Chain' (· > ·) l := by
  induction l with
  | nil => simp [descOk]
  | cons a t ih =>
    cases t with
    | nil => simp [descOk]
    | cons b t2 => simp [descOk, List.chain'_cons, ih]

/-! ## C1: `is_valid` characterizes the side-dependent price ordering -/

/-- C1. For every TradingSignal whose required fields are present
(non-empty pair) and whose prices are positive, `is_valid` returns true
iff the side-dependent strict ordering holds: for BUY,
stop < entry < tp1 with the present take-profits strictly ascending;
for SELL, tp1 < entry < stop with the present take-profits strictly
descending. -/
theorem is_valid_iff_price_ordering (s : TradingSignal)
    (hp : s.pair ≠ "") (he : 0 < s.entry_price) (hsl : 0 < s.stop_loss)
    (ht1 : 0 < s.take_profit_1) :
    s.is_valid = true ↔
      ((s.action = SignalAction.BUY →
          s.stop_loss < s.entry_price ∧ s.entry_price < s.take_profit_1 ∧
          List.Chain' (· < ·) s.get_take_profits) ∧
       (s.action = SignalAction.SELL →
          s.take_profit_1 < s.entry_price ∧ s.entry_price < s.stop_loss ∧
          List.Chain' (· > ·) s.get_take_profits)) := by
  have hreq : ¬(s.pair = "" ∨ s.entry_price = 0 ∨ s.stop_loss = 0 ∨ s.take_profit_1 = 0) := by
    push_neg
    exact ⟨hp, he.ne', hsl.ne', ht1.ne'⟩
  unfold TradingSignal.is_valid
  rw [if_neg hreq]
  cases hact : s.action with
  | BUY =>
    by_cases h1 : s.stop_loss < s.entry_price ∧ s.entry_price < s.take_profit_1
    · simp [h1.1, h1.2, ascOk_iff]
    · rw [if_pos h1]
      exact iff_of_false (by simp) (fun h => h1 ⟨(h.1 rfl).1, (h.1 rfl).2.1⟩)
  | SELL =>
    by_cases h1 : s.take_profit_1 < s.entry_price ∧ s.entry_price < s.stop_loss
    · simp [h1.1, h1.2, descOk_iff]
    · rw [if_pos h1]
      exact iff_of_false (by simp) (fun h => h1 ⟨(h.2 rfl).1, (h.2 rfl).2.1⟩)

/-- Scenario A signal used as concrete witness input. -/
def sigA : TradingSignal :=
  { pair := "EURUSD", action := SignalAction.BUY,
    entry_price := mkRat 10850 10000, stop_loss := mkRat 10800 10000,
    take_profit_1 := mkRat 10900 10000, take_profit_2 := some (mkRat 10950 10000),
    take_profit_3 := some (mkRat 11000 10000), raw_text := "" }

/-- Witness for C1 at the Scenario A signal. -/
theorem is_valid_iff_price_ordering_witness :
    sigA.pair ≠ "" ∧ sigA.is_valid = true :=
  ⟨by decide,
   (is_valid_iff_price_ordering sigA (by decide) (by decide) (by decide) (by decide)).mpr
     (by constructor
         · intro _
           refine ⟨by decide, by decide, ?_⟩
           simp +decide [sigA, TradingSignal.get_take_profits, List.chain'_cons]
         · intro h
           exact absurd h (by decide))⟩

/-! ## C4: replies are never new orders -/

/-- C4. For every text and every AI-strategy outcome,
`parse_signal` with `is_reply = true` returns no signal. -/
theorem parse_signal_on_reply_is_none (ai : Option AIResult) (text : String) :
    parse_signal ai text true = none := rfl

/-! ## C3: a validation-failing AI order does NOT short-circuit -/

/-- Scenario A message text. -/
def scenAText : String :=
  "BUY LIMIT EURUSD @ 1.0850\nSL: 1.0800\nTP1: 1.0900\nTP2: 1.0950\nTP3: 1.1000"

/-- AI strategy output whose BUY prices are mis-ordered
(stop above entry), so the built signal fails `is_valid`. -/
def badAI : AIResult :=
  { pair := "EURUSD", action := "BUY", entry_price := mkRat 1 1,
    stop_loss := mkRat 2 1, tp1 := mkRat 3 1, tp2 := none, tp3 := none }

/-- The TradingSignal built from `badAI` on the Scenario A text. -/
def badAISig : TradingSignal :=
  { pair := "EURUSD", action := SignalAction.BUY, entry_price := mkRat 1 1,
    stop_loss := mkRat 2 1, take_profit_1 := mkRat 3 1,
    take_profit_2 := none, take_profit_3 := none, raw_text := scenAText }

/-- Counterexample to C3 as stated: on the Scenario A text the AI
strategy produces a structured order that fails validation, yet
extraction does NOT classify the message as NotASignal — it falls
through to the pattern-based strategy, which returns a signal. -/
theorem parse_signal_ai_invalid_cex :
    buildFromAI badAI scenAText = some badAISig ∧
    badAISig.is_valid = false ∧
    parse_signal (some badAI) scenAText false ≠ none := by
  refine ⟨by decide, by decide, by decide⟩

/-- C3 amended. When the AI-assisted strategy produces a structured
order that fails validation, extraction falls through to the
pattern-based strategy and returns that strategy's result. -/
theorem parse_signal_ai_invalid_falls_through (r : AIResult) (text : String)
    (sig : TradingSignal) (hb : buildFromAI r text = some sig)
    (hv : sig.is_valid = false) :
    parse_signal (some r) text false = regexStrategy text := by
  simp [parse_signal, hb, hv]

/-- Witness for the amended C3 at the concrete inputs of the
counterexample. -/
theorem parse_signal_ai_invalid_falls_through_witness :
    parse_signal (some badAI) scenAText false = regexStrategy scenAText :=
  parse_signal_ai_invalid_falls_through badAI scenAText badAISig (by decide) (by decide)

/-! ## C8: the pattern-based pre-filter -/

/-- C8. The pre-filter `is_new_signal` on a non-reply text returns true
iff: the text matches the explicit limit-order phrase pattern or a
colored-circle marker, contains no reply vocabulary, contains a
6-uppercase-letter instrument token, an entry token and a stop-loss
token, and at least one take-profit token. When it returns false the
pattern-based strategy classifies the text as NotASignal without
extracting. In particular "Close half position at TP2" is NotASignal. -/
theorem is_new_signal_prefilter_characterization :
    (∀ text : Chars,
      is_new_signal text false = true ↔
        (((actionSearch text).isSome = true ∨ hasBuyEmoji text = true ∨
            hasSellEmoji text = true) ∧
         replySearch text = false ∧
         (pairSearch text).isSome = true ∧
         (entrySearch text).isSome = true ∧
         (slSearch text).isSome = true ∧
         ((tpNumberedSearch text).isSome = true ∨ (tpSimpleSearch text).isSome = true))) ∧
    (∀ text : String,
      is_new_signal text.toList false = false → regexStrategy text = none) ∧
    regexStrategy "Close half position at TP2" = none := by
  refine ⟨fun text => ?_, fun text h => by unfold regexStrategy; rw [h]; simp, by decide⟩
  unfold is_new_signal
  cases hA : ((actionSearch text).isSome || hasBuyEmoji text || hasSellEmoji text) <;>
  cases hR : replySearch text <;>
  cases hP : (pairSearch text).isSome <;>
  cases hES : ((entrySearch text).isSome && (slSearch text).isSome) <;>
  cases hT : ((tpNumberedSearch text).isSome || (tpSimpleSearch text).isSome) <;>
    simp_all [or_assoc]

/-- Witness for C8: the Scenario B text fails the pre-filter, so the
pattern-based strategy yields no signal. -/
theorem is_new_signal_prefilter_witness :
    regexStrategy "Close half position at TP2" = none :=
  is_new_signal_prefilter_characterization.2.1 "Close half position at TP2" (by decide)

/-! ## C2: `get_signal_state` reconciliation -/

/-- Boolean membership of an event type, as the replay loop tests it. -/
def hasEv (t : String) : List String → Bool
  | [] => false
  | x :: xs => decide (x = t) || hasEv t xs

theorem hasEv_eq_decide (t : String) (evs : List String) :
    hasEv t evs = decide (t ∈ evs) := by
  induction evs with
  | nil => simp [hasEv]
  | cons x xs ih => simp [hasEv, ih, List.mem_cons, eq_comm]

theorem lastMover_mem (evs : List String) (m : String) (h : lastMover evs = some m) :
    m = "tp1_hit" ∨ m = "tp2_hit" := by
  induction evs with
  | nil => simp [lastMover] at h
  | cons x xs ih =>
    unfold lastMover at h
    cases hl : lastMover xs with
    | some k =>
      rw [hl] at h
      cases Option.some.inj h
      exact ih hl
    | none =>
      rw [hl] at h
      split_ifs at h with h1
      exact (Option.some.inj h) ▸ h1

/-- Characterization of the replay loop: the hit flags record which
`tpN_hit` events occur, and the final stop is decided by the last
stop-moving event. -/
theorem replayEvents_spec (e t1 : ℚ) (evs : List String) : ∀ a : RecAcc,
    replayEvents e t1 evs a =
      { t1 := a.t1 || hasEv "tp1_hit" evs,
        t2 := a.t2 || hasEv "tp2_hit" evs,
        t3 := a.t3 || hasEv "tp3_hit" evs,
        sl := match lastMover evs with
              | some "tp1_hit" => e
              | some "tp2_hit" => t1
              | _ => a.sl } := by
  induction evs with
  | nil => intro a; simp [replayEvents, hasEv, lastMover]
  | cons x xs ih =>
    intro a
    have hfold : replayEvents e t1 (x :: xs) a = replayEvents e t1 xs (stepEvent e t1 a x) := rfl
    rw [hfold, ih]
    by_cases hx1 : x = "tp1_hit"
    · subst hx1
      cases hl : lastMover xs with
      | none => simp [stepEvent, hasEv, lastMover, hl]
      | some m =>
        rcases lastMover_mem xs m hl with rfl | rfl <;> simp [stepEvent, hasEv, lastMover, hl]
    · by_cases hx2 : x = "tp2_hit"
      · subst hx2
        cases hl : lastMover xs with
        | none => simp [stepEvent, hasEv, lastMover, hl]
        | some m =>
          rcases lastMover_mem xs m hl with rfl | rfl <;> simp [stepEvent, hasEv, lastMover, hl]
      · by_cases hx3 : x = "tp3_hit"
        · subst hx3
          cases hl : lastMover xs with
          | none => simp [stepEvent, hasEv, lastMover, hl]
          | some m =>
            rcases lastMover_mem xs m hl with rfl | rfl <;>
              simp [stepEvent, hasEv, lastMover, hl]
        · cases hl : lastMover xs with
          | none => simp [stepEvent, hasEv, lastMover, hl, hx1, hx2, hx3]
          | some m =>
            rcases lastMover_mem xs m hl with rfl | rfl <;>
              simp [stepEvent, hasEv, lastMover, hl, hx1, hx2, hx3]

/-- C2 exactly as stated: tpN null iff the tpN_hit event occurred; stop
decided by the last stop-moving event (entry after tp1_hit, original
tp1 after tp2_hit, original stop otherwise); status completed /
active_partial / stored. -/
def reconClaimC2 (sig : StoredSignal) (evs : List String) : Prop :=
  ((getSignalState sig evs).tp1 = none ↔ "tp1_hit" ∈ evs) ∧
  ((getSignalState sig evs).tp2 = none ↔ "tp2_hit" ∈ evs) ∧
  ((getSignalState sig evs).tp3 = none ↔ "tp3_hit" ∈ evs) ∧
  (getSignalState sig evs).stop_loss =
    (match lastMover evs with
     | some "tp1_hit" => sig.entry_price
     | some "tp2_hit" => sig.tp1
     | _ => sig.stop_loss) ∧
  (getSignalState sig evs).status =
    (if "tp3_hit" ∈ evs then "completed"
     else if "tp1_hit" ∈ evs ∨ "tp2_hit" ∈ evs then "active_partial"
     else sig.status)

/-- A stored signal with a single take-profit level (tp2 and tp3 NULL),
as produced for single-TP messages. -/
def sigOneTP : StoredSignal :=
  { id := "sig-1", message_id := 42, symbol := "GBPJPY", action := "SELL",
    entry_price := mkRat 199231 1000, stop_loss := mkRat 199558 1000,
    tp1 := mkRat 198736 1000, tp2 := none, tp3 := none, status := "pending" }

/-- Counterexample to C2 as stated: for a signal stored with tp2 NULL
and an empty event list, the reconciled tp2 is null although no
`tp2_hit` event occurs, so the claimed "null iff hit" equivalence
fails. -/
theorem getSignalState_claim_cex : ¬ reconClaimC2 sigOneTP [] := by
  unfold reconClaimC2
  decide

/-- C2 amended. The reconciled state satisfies: tp1 is null iff
`tp1_hit` occurred; tp2 (resp. tp3) is null iff `tp2_hit` (resp.
`tp3_hit`) occurred or the stored level is itself null; the current
stop is the entry price when the last stop-moving event is `tp1_hit`,
the original tp1 when it is `tp2_hit`, and the original stop-loss when
no stop-moving event occurred; the derived status is as claimed. -/
theorem getSignalState_reconciliation (sig : StoredSignal) (evs : List String) :
    ((getSignalState sig evs).tp1 = none ↔ "tp1_hit" ∈ evs) ∧
    ((getSignalState sig evs).tp2 = none ↔ ("tp2_hit" ∈ evs ∨ sig.tp2 = none)) ∧
    ((getSignalState sig evs).tp3 = none ↔ ("tp3_hit" ∈ evs ∨ sig.tp3 = none)) ∧
    (getSignalState sig evs).stop_loss =
      (match lastMover evs with
       | some "tp1_hit" => sig.entry_price
       | some "tp2_hit" => sig.tp1
       | _ => sig.stop_loss) ∧
    (getSignalState sig evs).status =
      (if "tp3_hit" ∈ evs then "completed"
       else if "tp1_hit" ∈ evs ∨ "tp2_hit" ∈ evs then "active_partial"
       else sig.status) := by
  unfold getSignalState
  rw [replayEvents_spec]
  by_cases h1 : "tp1_hit" ∈ evs <;> by_cases h2 : "tp2_hit" ∈ evs <;>
    by_cases h3 : "tp3_hit" ∈ evs <;>
    simp [hasEv_eq_decide, h1, h2, h3]

/-! ## C6: the event-type → status mapping of `report_event` -/

/-- The conditional UPDATE of `report_event` equals one `map` with the
total status mapping (unchanged when no UPDATE is run). -/
theorem statusUpdate_eq (sigs : List StoredSignal) (et s : String) :
    (match newStatusFor et with
     | some ns => sigs.map
         (fun r : StoredSignal => if r.id = s then { r with status := ns } else r)
     | none => sigs) =
    sigs.map (fun r => if r.id = s then
      { r with status :=
          if et = "order_placed" then "active"
          else if et = "tp3_hit" ∨ et = "sl_hit" ∨ et = "manual_close" then "completed"
          else if et = "error" then "failed"
          else r.status }
      else r) := by
  unfold newStatusFor
  split_ifs with ha hb hc
  · simp [ha]
  · simp [ha, hb]
  · simp [ha, hb, hc]
  · have hid : (fun r : StoredSignal =>
        if r.id = s then { r with status := r.status } else r) = fun r => r := by
      funext r
      split <;> rfl
    simp [ha, hb, hc, hid]

/-- C6. For every successful `report_event` call, the event is appended
and the referenced signal's stored status is updated by the fixed
mapping: order_placed→active; tp3_hit, sl_hit, manual_close→completed;
error→failed; every other event type leaves the status unchanged. -/
theorem report_event_status_mapping (db : SDB) (sid? : Option String)
    (mid? : Option Int) (et edata : String) (now : Nat) (s : String) (db' : SDB)
    (h : reportEvent db sid? mid? (some et) edata now = (REResp.success s, db')) :
    db'.signals = db.signals.map
      (fun r => if r.id = s then
        { r with status :=
            if et = "order_placed" then "active"
            else if et = "tp3_hit" ∨ et = "sl_hit" ∨ et = "manual_close" then "completed"
            else if et = "error" then "failed"
            else r.status }
        else r) ∧
    db'.events = db.events ++
      [{ id := db.nextEid, signal_id := s, event_type := et, event_data := edata,
         timestamp := now }] := by
  unfold reportEvent at h
  by_cases het : truthyS (some et) = false
  · rw [if_pos het] at h
    simp at h
  · rw [if_neg het] at h
    cases hres : resolveRef db.signals sid? mid? with
    | badRequest => rw [hres] at h; simp at h
    | notFound => rw [hres] at h; simp at h
    | ok s0 =>
      rw [hres] at h
      rw [Prod.mk.injEq] at h
      obtain ⟨hfst, hsnd⟩ := h
      have hs : s0 = s := by injection hfst
      rw [← hs, ← hsnd]
      exact ⟨statusUpdate_eq db.signals et s0, rfl⟩

/-- Database with one stored signal, used as concrete witness input. -/
def sdb0 : SDB := { signals := [sigOneTP], events := [], nextEid := 1 }

/-- Witness for C6: reporting `order_placed` against the stored signal
appends the event row. -/
theorem report_event_status_mapping_witness :
    ((reportEvent sdb0 (some "sig-1") none (some "order_placed") "x" 7).2).events =
      sdb0.events ++ [{ id := sdb0.nextEid, signal_id := "sig-1",
                        event_type := "order_placed", event_data := "x", timestamp := 7 }] :=
  (report_event_status_mapping sdb0 (some "sig-1") none "order_placed" "x" 7 "sig-1"
    ((reportEvent sdb0 (some "sig-1") none (some "order_placed") "x" 7).2) (by decide)).2

/-! ## C7: dual-key signal resolution in `report_event` -/

/-- C7. Resolution of a signal reference tries the given signal id
first; only when that id does not exist does it fall back to the given
message id, and the event is then recorded against the signal id found
via the message id; the call is answered 404 exactly when neither the
given signal id nor the given message id resolves to a stored signal. -/
theorem report_event_dual_key_resolution (sigs : List StoredSignal)
    (sid? : Option String) (mid? : Option Int) :
    (∀ s, sid? = some s → s ≠ "" → (findById sigs s).isSome = true →
      resolveRef sigs sid? mid? = RefRes.ok s) ∧
    (∀ s m r, sid? = some s → s ≠ "" → findById sigs s = none →
      mid? = some m → m ≠ 0 → findByMid sigs m = some r →
      resolveRef sigs sid? mid? = RefRes.ok r.id) ∧
    (resolveRef sigs sid? mid? = RefRes.notFound ↔
      ((truthyS sid? = true ∨ truthyI mid? = true) ∧
       (∀ s, sid? = some s → s ≠ "" → findById sigs s = none) ∧
       (∀ m, mid? = some m → m ≠ 0 → findByMid sigs m = none))) ∧
    (∀ (db : SDB) (et edata : String) (now : Nat) (s : String),
      db.signals = sigs → et ≠ "" → resolveRef sigs sid? mid? = RefRes.ok s →
      (reportEvent db sid? mid? (some et) edata now).2.events =
        db.events ++ [{ id := db.nextEid, signal_id := s, event_type := et,
                        event_data := edata, timestamp := now }]) := by
  refine ⟨?_, ?_, ?_, ?_⟩
  · intro s hs hne hfind
    subst hs
    obtain ⟨r, hr⟩ := Option.isSome_iff_exists.mp hfind
    simp [resolveRef, truthyS, hne, hr]
  · intro s m r hs hne hidnone hm hmne hmid
    subst hs
    subst hm
    simp [resolveRef, truthyS, truthyI, hne, hmne, hidnone, hmid]
  · rcases hs : sid? with _ | s0
    · rcases hm : mid? with _ | m0
      · simp [resolveRef, truthyS, truthyI]
      · by_cases hm0 : m0 = 0
        · subst hm0
          simp [resolveRef, truthyS, truthyI]
        · cases hf : findByMid sigs m0 with
          | some r => simp [resolveRef, truthyS, truthyI, hm0, hf]
          | none => simp [resolveRef, truthyS, truthyI, hm0, hf]
    · by_cases hs0 : s0 = ""
      · subst hs0
        rcases hm : mid? with _ | m0
        · simp [resolveRef, truthyS, truthyI]
        · by_cases hm0 : m0 = 0
          · subst hm0
            simp [resolveRef, truthyS, truthyI]
          · cases hf : findByMid sigs m0 with
            | some r => simp [resolveRef, truthyS, truthyI, hm0, hf]
            | none => simp [resolveRef, truthyS, truthyI, hm0, hf]
      · rcases hm : mid? with _ | m0
        · cases hf : findById sigs s0 with
          | some r => simp [resolveRef, truthyS, truthyI, hs0, hf]
          | none => simp [resolveRef, truthyS, truthyI, hs0, hf]
        · by_cases hm0 : m0 = 0
          · subst hm0
            cases hf : findById sigs s0 with
            | some r => simp [resolveRef, truthyS, truthyI, hs0, hf]
            | none => simp [resolveRef, truthyS, truthyI, hs0, hf]
          · cases hf : findById sigs s0 with
            | some r => simp [resolveRef, truthyS, truthyI, hs0, hm0, hf]
            | none =>
              cases hg : findByMid sigs m0 with
              | some r => simp [resolveRef, truthyS, truthyI, hs0, hm0, hf, hg]
              | none => simp [resolveRef, truthyS, truthyI, hs0, hm0, hf, hg]
  · intro db et edata now s hdb het hres
    unfold reportEvent
    rw [if_neg (by simp [truthyS, het]), hdb, hres]
    simp

/-- Witness for C7: a wrong signal id falls back to resolution via the
message id of the stored signal. -/
theorem report_event_dual_key_resolution_witness :
    resolveRef [sigOneTP] (some "wrong-id") (some 42) = RefRes.ok sigOneTP.id :=
  (report_event_dual_key_resolution [sigOneTP] (some "wrong-id") (some 42)).2.1
    "wrong-id" 42 sigOneTP rfl (by decide) (by decide) rfl (by decide) (by decide)

/-! ## C5: inserting the same message id twice -/

theorem intOk_ne_null (v : JVal) (h : intOk v = true) : v ≠ JVal.jnull := by
  intro hv
  rw [hv] at h
  simp [intOk] at h

/-- A request that passes the validation chain carries a non-null
message id (its `int(...)` check succeeded). -/
theorem addValidate_none_message_id (d : JObj) (h : addValidate d = none) :
    (mkRow d).message_id ≠ JVal.jnull := by
  unfold addValidate at h
  by_cases h0 : d = []
  · simp [h0] at h
  · rw [if_neg h0] at h
    cases hf : requiredFields.find? (fun f => (jget d f).isNone) with
    | some f => rw [hf] at h; simp at h
    | none =>
      rw [hf] at h
      by_cases hn : (!(floatOk ((jget d "entry_price").getD JVal.jnull) &&
          floatOk ((jget d "stop_loss").getD JVal.jnull) &&
          floatOk ((jget d "tp1").getD JVal.jnull) &&
          intOk ((jget d "message_id").getD JVal.jnull) &&
          intOk ((jget d "channel_id").getD JVal.jnull))) = true
      · rw [if_pos hn] at h
        simp at h
      · have hX : (floatOk ((jget d "entry_price").getD JVal.jnull) &&
            floatOk ((jget d "stop_loss").getD JVal.jnull) &&
            floatOk ((jget d "tp1").getD JVal.jnull) &&
            intOk ((jget d "message_id").getD JVal.jnull) &&
            intOk ((jget d "channel_id").getD JVal.jnull)) = true := by
          cases hb : (floatOk ((jget d "entry_price").getD JVal.jnull) &&
              floatOk ((jget d "stop_loss").getD JVal.jnull) &&
              floatOk ((jget d "tp1").getD JVal.jnull) &&
              intOk ((jget d "message_id").getD JVal.jnull) &&
              intOk ((jget d "channel_id").getD JVal.jnull)) with
          | false => rw [hb] at hn; simp at hn
          | true => rfl
        have hok : intOk ((jget d "message_id").getD JVal.jnull) = true :=
          ((Bool.and_eq_true _ _).mp ((Bool.and_eq_true _ _).mp hX).1).2
        exact intOk_ne_null _ hok

/-- C5. Inserting the same payload twice yields exactly one stored row:
when the first `add_signal` call succeeds (appending one row), the
second call with the same payload — hence the same message id — fails
with the 409 duplicate outcome and leaves the table unchanged. -/
theorem add_signal_duplicate_conflict (db : List RawRow) (d : JObj) (db' : List RawRow)
    (h : addSignal db d = (AddResp.ok, db')) :
    db' = db ++ [mkRow d] ∧ addSignal db' d = (AddResp.dup, db') := by
  unfold addSignal at h ⊢
  cases hv : addValidate d with
  | some m =>
    rw [hv] at h
    simp at h
  | none =>
    rw [hv] at h
    replace h : (if (notNullViol (mkRow d) || dupViol db (mkRow d)) = true
                 then (AddResp.dup, db) else (AddResp.ok, db ++ [mkRow d]))
                = (AddResp.ok, db') := h
    show db' = db ++ [mkRow d] ∧
         (if (notNullViol (mkRow d) || dupViol db' (mkRow d)) = true
          then (AddResp.dup, db') else (AddResp.ok, db' ++ [mkRow d]))
         = (AddResp.dup, db')
    by_cases hviol : (notNullViol (mkRow d) || dupViol db (mkRow d)) = true
    · rw [if_pos hviol] at h
      simp at h
    · rw [if_neg hviol] at h
      rw [Prod.mk.injEq] at h
      obtain ⟨-, hdb⟩ := h
      subst hdb
      refine ⟨rfl, ?_⟩
      have hmid : (mkRow d).message_id ≠ JVal.jnull := addValidate_none_message_id d hv
      have hdup : dupViol (db ++ [mkRow d]) (mkRow d) = true := by
        simp [dupViol, List.any_append, hmid]
      rw [if_pos (by simp [hdup])]

/-- Valid Scenario A payload for `add_signal`. -/
def payloadA : JObj :=
  [("id", JVal.js "sig-1"), ("message_id", JVal.ji 42), ("channel_id", JVal.ji 7),
   ("symbol", JVal.js "EURUSD"), ("action", JVal.js "BUY"),
   ("entry_price", JVal.jn (mkRat 217 200)), ("stop_loss", JVal.jn (mkRat 27 25)),
   ("tp1", JVal.jn (mkRat 109 100)), ("raw_message", JVal.js "BUY LIMIT EURUSD")]

/-- Witness for C5 at the Scenario A payload over the empty table. -/
theorem add_signal_duplicate_conflict_witness :
    (addSignal [] payloadA).2 = [] ++ [mkRow payloadA] ∧
    addSignal ((addSignal [] payloadA).2) payloadA =
      (AddResp.dup, (addSignal [] payloadA).2) :=
  add_signal_duplicate_conflict [] payloadA (addSignal [] payloadA).2 (by decide)

/-! ## C10: present-but-null required fields in `add_signal` -/

/-- Scenario A payload with a present-but-null `action`. -/
def payloadActNull : JObj :=
  [("id", JVal.js "sig-1"), ("message_id", JVal.ji 42), ("channel_id", JVal.ji 7),
   ("symbol", JVal.js "EURUSD"), ("action", JVal.jnull),
   ("entry_price", JVal.jn (mkRat 217 200)), ("stop_loss", JVal.jn (mkRat 27 25)),
   ("tp1", JVal.jn (mkRat 109 100)), ("raw_message", JVal.js "BUY LIMIT EURUSD")]

/-- Scenario A payload with a present-but-null `symbol`. -/
def payloadSymNull : JObj :=
  [("id", JVal.js "sig-1"), ("message_id", JVal.ji 42), ("channel_id", JVal.ji 7),
   ("symbol", JVal.jnull), ("action", JVal.js "BUY"),
   ("entry_price", JVal.jn (mkRat 217 200)), ("stop_loss", JVal.jn (mkRat 27 25)),
   ("tp1", JVal.jn (mkRat 109 100)), ("raw_message", JVal.js "BUY LIMIT EURUSD")]

/-- Counterexample to C10 as stated: for the required non-numeric field
`action`, a present-but-null value IS rejected with the 400 validation
response (by the BUY/SELL membership check), not answered 409. -/
theorem add_signal_null_claim_cex :
    addSignal [] payloadActNull =
      (AddResp.bad "Invalid action: must be BUY or SELL", []) ∧
    AddResp.bad "Invalid action: must be BUY or SELL" ≠ AddResp.dup :=
  ⟨by decide, by decide⟩

/-- C10 amended. For the required non-numeric fields not covered by any
validation check — `symbol` and `raw_message` — a present-but-null
value passes the whole validation chain, reaches the INSERT, violates
the NOT NULL constraint, and is answered with the 409 duplicate
response (treated as success by the caller), leaving the table
unchanged. -/
theorem add_signal_null_symbol_conflict (db : List RawRow) (d : JObj)
    (hval : addValidate d = none)
    (hnull : jget d "symbol" = some JVal.jnull ∨ jget d "raw_message" = some JVal.jnull) :
    addSignal db d = (AddResp.dup, db) := by
  unfold addSignal
  rw [hval]
  have hviol : notNullViol (mkRow d) = true := by
    unfold notNullViol mkRow
    rcases hnull with h | h <;> simp [h]
  rw [if_pos (by simp [hviol])]

/-- Witness for the amended C10 at the null-symbol payload. -/
theorem add_signal_null_symbol_conflict_witness :
    addSignal [] payloadSymNull = (AddResp.dup, []) :=
  add_signal_null_symbol_conflict [] payloadSymNull (by decide) (Or.inl (by decide))

/-! ## C9: tie-breaking of the event query -/

def evTp1 : TradeEvent :=
  { id := 1, signal_id := "sig-1", event_type := "tp1_hit", event_data := "",
    timestamp := 100 }

def evTp2 : TradeEvent :=
  { id := 2, signal_id := "sig-1", event_type := "tp2_hit", event_data := "",
    timestamp := 100 }

/-- C9 evidence. Two events of the same signal written within the same
CURRENT_TIMESTAMP second (insertion order: id 1 then id 2): the reversed
list is a permissible answer of `ORDER BY timestamp ASC` — it is a
permutation of the matching rows sorted by timestamp — yet it is not in
insertion/id order, so the query does not enforce the claimed
tie-breaking. -/
theorem query_order_tie_not_enforced :
    queryEventsSpec [evTp1, evTp2] "sig-1" [evTp2, evTp1] ∧
    ¬ tieSorted [evTp2, evTp1] := by
  refine ⟨⟨?_, ?_⟩, ?_⟩
  · have hf : [evTp1, evTp2].filter (fun e => decide (e.signal_id = "sig-1")) =
        [evTp1, evTp2] := by decide
    rw [hf]
    exact List.Perm.swap evTp1 evTp2 []
  · simp [List.pairwise_cons, evTp1, evTp2]
  · intro hts
    have h := (List.pairwise_cons.mp hts).1 evTp1 (List.mem_singleton_self _)
    rcases h with h | ⟨-, h⟩ <;> simp [evTp1, evTp2] at h

end TPExec

